import Mathlib

/-!
# Verification of the IKMS RAG multi-stage QA pipeline

Shallow embedding of the question-answering pipeline of
`src/app/core/agents/agents.py` and `src/app/core/retrieval/serialization.py`:
the Planner / Retriever / Summarizer / Verifier node functions over the shared
`QAState`, the sub-question fan-out and context assembly, and the chunk
serializer.  Language-model calls and the retrieval tool are external
collaborators; they are modelled as explicit environment parameters
(`String → String` for a generation call that returns message content,
`String → ToolResult` for a retrieval-tool call).  Fallible variants
(`… → Except Err …`) model backend calls that may raise.
-/

/-! ## Python string primitives

The pipeline's parsing is built from CPython string methods.  They are
re-implemented here over `List Char` so that every theorem reduces in the
kernel.  Inputs handled by this pipeline are ASCII, so the ASCII whitespace
set of `str.strip` suffices.
-/

/-- The ASCII whitespace characters stripped by Python `str.strip()`:
space, tab, newline, carriage return, vertical tab, form feed. -/
def isPyWS (c : Char) : Bool :=
  c == ' ' || c == '\t' || c == '\n' || c == '\r' ||
    c == Char.ofNat 11 || c == Char.ofNat 12

/-- Drop the characters satisfying `p` from both ends of a character list
(Python two-sided strip over an arbitrary character class). -/
def pyStripList (p : Char → Bool) (l : List Char) : List Char :=
  ((l.dropWhile p).reverse.dropWhile p).reverse

/-- Python `s.strip()`: remove whitespace from both ends. -/
def pyStrip (s : String) : String :=
  ⟨pyStripList isPyWS s.data⟩

/-- The character class of Python `s.strip("- ")`: the dash and the space. -/
def isBulletChar (c : Char) : Bool :=
  c == '-' || c == ' '

/-- Python `s.strip("- ")`: remove dashes and spaces from both ends. -/
def pyStripBullet (s : String) : String :=
  ⟨pyStripList isBulletChar s.data⟩

/-- Worker for Python `str.split(sep)` with a non-empty separator: scan left
to right, cutting at each non-overlapping occurrence of `sep`.  `fuel` only
forces termination; `l.length + 1` steps always suffice since every step
consumes at least one character of the scanned list. -/
def pySplitGo (sep : List Char) : Nat → List Char → List Char → List (List Char)
  | 0, l, acc => [acc.reverse ++ l]
  | _ + 1, [], acc => [acc.reverse]
  | fuel + 1, c :: rest, acc =>
    if sep.isPrefixOf (c :: rest) then
      acc.reverse :: pySplitGo sep fuel (List.drop (sep.length - 1) rest) []
    else
      pySplitGo sep fuel rest (c :: acc)

/-- Python `s.split(sep)` for a non-empty separator `sep`. -/
def pySplitOn (s sep : String) : List String :=
  (pySplitGo sep.data (s.data.length + 1) s.data []).map String.mk

/-- Python `"\n\n".join(parts)` and friends. -/
def pyJoin (sep : String) (parts : List String) : String :=
  String.intercalate sep parts

/-- Python `content.replace("\n", " ")`: with a one-character pattern and a
one-character replacement this is a character-wise map. -/
def replaceNewlines (s : String) : String :=
  ⟨s.data.map (fun c => if c == '\n' then ' ' else c)⟩

/-! ## Data model -/

/-- Modelled from the spec: `QAState` (its defining module `state.py` is not
under `src/`; fields per spec section 3 and their uses in `agents.py`).
`question` is set at pipeline entry; the remaining fields are optional keys
of the state dictionary, absent until their stage has run. -/
structure QAState where
  question : String
  plan : Option String := none
  sub_questions : Option (List String) := none
  context : Option String := none
  draft_answer : Option String := none
  answer : Option String := none
deriving DecidableEq, Repr

/-- A node function's return value: the partial state dictionary it merges
back into `QAState` (each Python node returns a dict holding only the keys
it writes). -/
structure QAUpdate where
  question : Option String := none
  plan : Option String := none
  sub_questions : Option (List String) := none
  context : Option String := none
  draft_answer : Option String := none
  answer : Option String := none
deriving DecidableEq, Repr

/-- Merge a node's partial output into the shared state (LangGraph merges the
returned dict into the state key by key). -/
def applyUpdate (s : QAState) (u : QAUpdate) : QAState where
  question := (u.question).getD s.question
  plan := (u.plan).orElse fun _ => s.plan
  sub_questions := (u.sub_questions).orElse fun _ => s.sub_questions
  context := (u.context).orElse fun _ => s.context
  draft_answer := (u.draft_answer).orElse fun _ => s.draft_answer
  answer := (u.answer).orElse fun _ => s.answer

/-- Python rendering of an optional string inside an f-string:
`f"{None}"` is `"None"`, otherwise the string itself. -/
def pyShowOpt (o : Option String) : String :=
  match o with
  | none => "None"
  | some s => s

/-! ## Planner (`planning_node`, agents.py lines 86-112)

The generation call `planning_agent.invoke(question)` followed by
`_extract_last_ai_content` is modelled by an environment `env : String →
String` mapping the question to the planner response content.
-/

/-- The transform `q.strip("- ").strip()` applied to each kept line of the
`Sub-questions:` section (agents.py line 107). -/
def bulletStrip (q : String) : String :=
  pyStrip (pyStripBullet q)

/-- The sub-question entries parsed from the (already stripped) text after
the `Sub-questions:` marker: split on newlines, keep the lines that are
non-empty after `strip()`, bullet-strip each (agents.py line 107). -/
def parseEntries (sub_q_part : String) : List String :=
  ((pySplitOn sub_q_part "\n").filter (fun q => !(pyStrip q).isEmpty)).map bulletStrip

/-- The sub-question list parsed from the planner response content
(agents.py lines 103-107), before the fallback of line 111. -/
def parseSubQuestions (content : String) : List String :=
  let parts := pySplitOn content "Sub-questions:"
  if 1 < parts.length then parseEntries (pyStrip (parts.getD 1 ""))
  else []

/-- The plan text parsed from the planner response content
(agents.py lines 97-101). -/
def parsePlan (content : String) : String :=
  let parts := pySplitOn content "Plan:"
  if 1 < parts.length then
    pyStrip ((pySplitOn (parts.getD 1 "") "Sub-questions:").getD 0 "")
  else ""

/-- `planning_node` (agents.py lines 86-112): parse plan and sub-questions
out of the planner response; fall back to `[question]` when the parsed
sub-question list is empty. -/
def planning_node (env : String → String) (state : QAState) : QAUpdate :=
  let question := state.question
  let content := env question
  let plan := parsePlan content
  let sub_questions := parseSubQuestions content
  { plan := some plan,
    sub_questions := some (if sub_questions.isEmpty then [question] else sub_questions) }

/-- Modelled from the spec: the per-line transform C9 describes for
sub-question entries — remove only a leading list-bullet (one dash with its
surrounding whitespace) and trim the line.  Defined solely to compare the
claim's wording with the code's `bulletStrip`. -/
def specLeadingBulletStrip (q : String) : String :=
  let l := q.data.dropWhile isPyWS
  let l2 := match l with
    | '-' :: rest => rest.dropWhile isPyWS
    | _ => l
  pyStrip ⟨l2⟩

/-! ## Retriever (`retrieval_node` / `process_question`, agents.py lines 115-151)

`retrieval_agent.ainvoke` returning a message with `tool_calls` is modelled
by an environment `agent : String → AgentResponse` keyed by the sub-question;
`retrieval_tool.ainvoke(args)` by `tool : String → ToolResult` keyed by an
opaque rendering of the call's `args`.
-/

/-- One entry of the response message's `tool_calls` list: a requested tool
name and its (opaque) arguments. -/
structure ToolCall where
  name : String
  args : String
deriving DecidableEq, Repr

/-- The retrieval agent's response message, reduced to the part
`process_question` inspects: its `tool_calls` list. -/
structure AgentResponse where
  tool_calls : List ToolCall
deriving DecidableEq, Repr

/-- What `retrieval_tool.ainvoke` returns: either a `(content, artifact)`
pair or a bare content string (agents.py lines 132-139 handle both). -/
inductive ToolResult where
  | pair (content : String) (artifact : String)
  | bare (content : String)
deriving DecidableEq, Repr

/-- Content extraction of agents.py lines 135-139: for a pair take the first
component, otherwise the value itself. -/
def extractContent (res : ToolResult) : String :=
  match res with
  | .pair content _ => content
  | .bare content => content

/-- `process_question` (agents.py lines 119-141): ask the retrieval agent
about one sub-question; execute the tool calls it requests whose name is
`"retrieval_tool"`; return the extracted content strings, or `[]` when no
(matching) tool call was requested. -/
def process_question (resp : AgentResponse) (tool : String → ToolResult) : List String :=
  if resp.tool_calls.isEmpty then []
  else
    let tool_results :=
      (resp.tool_calls.filter (fun tc => tc.name == "retrieval_tool")).map
        (fun tc => tool tc.args)
    if tool_results.isEmpty then []
    else tool_results.map extractContent

/-- The sub-question list the Retriever runs on:
`state.get("sub_questions") or [state["question"]]` (agents.py line 117) —
the fallback fires when the key is absent or its value is empty. -/
def effectiveSubQuestions (state : QAState) : List String :=
  match state.sub_questions with
  | none => [state.question]
  | some l => if l.isEmpty then [state.question] else l

/-- Assembly of agents.py lines 147-151: flatten the per-sub-question
contributions in submission order, join with a blank line, or produce the
pipeline-level sentinel when everything is empty. -/
def assembleContext (results : List (List String)) : String :=
  let all_context := results.flatten
  if all_context.isEmpty then "No context found." else pyJoin "\n\n" all_context

/-- `retrieval_node` (agents.py lines 115-151) with `asyncio.gather` read off
by its contract: the result list of `gather` is indexed by submission order. -/
def retrieval_node (agent : String → AgentResponse) (tool : String → ToolResult)
    (state : QAState) : QAUpdate :=
  let sub_questions := effectiveSubQuestions state
  let results := sub_questions.map (fun q => process_question (agent q) tool)
  { context := some (assembleContext results) }

/-! ### Completion-order model of `asyncio.gather`

To check the ordering guarantee against concurrency, `gather` is also
modelled operationally: tasks finish in an arbitrary completion order
(a list of task indices), each finisher writes its value into a slot keyed
by its submission index, and the result list is read out by submission
index once all slots are filled — exactly how `asyncio.gather` fills its
result list.
-/

/-- Write `v` into slot `i` of a slot assignment. -/
def writeSlot {α : Type} (f : Nat → Option α) (i : Nat) (v : Option α) : Nat → Option α :=
  fun j => if j = i then v else f j

/-- Run the tasks in the given completion `order`: each finishing task `i`
stores `tasks[i]` in its own slot. -/
def runTasks {α : Type} (tasks : List α) (order : List Nat) : Nat → Option α :=
  order.foldl (fun acc i => writeSlot acc i tasks[i]?) (fun _ => none)

/-- The gathered result list: slot contents read out in submission order. -/
def gatherSched {α : Type} [Inhabited α] (tasks : List α) (order : List Nat) : List α :=
  (List.range tasks.length).map (fun i => (runTasks tasks order i).getD default)

/-- `retrieval_node` with the operational gather model: per-sub-question
results are merged after completing in the arbitrary order `order`. -/
def retrieval_node_sched (agent : String → AgentResponse) (tool : String → ToolResult)
    (order : List Nat) (state : QAState) : QAUpdate :=
  let sub_questions := effectiveSubQuestions state
  let results := gatherSched (sub_questions.map (fun q => process_question (agent q) tool)) order
  { context := some (assembleContext results) }

/-! ## Summarizer and Verifier (agents.py lines 154-190) -/

/-- `summarization_node` (agents.py lines 154-166): compose the user message
from question and context and return the generated draft answer.  `env` maps
the composed user content to the agent's response content. -/
def summarization_node (env : String → String) (state : QAState) : QAUpdate :=
  let question := state.question
  let context := state.context
  let user_content := "Question: " ++ question ++ "\n\nContext:\n" ++ pyShowOpt context
  { draft_answer := some (env user_content) }

/-- `verification_node` (agents.py lines 169-190): compose the user message
from question, context and draft answer and return the corrected answer. -/
def verification_node (env : String → String) (state : QAState) : QAUpdate :=
  let question := state.question
  let context := (state.context).getD ""
  let draft_answer := (state.draft_answer).getD ""
  let user_content :=
    "Question: " ++ question ++ "\n\nContext:\n" ++ context ++
      "\n\nDraft Answer:\n" ++ draft_answer ++
      "\n\nPlease verify and correct the draft answer, removing any unsupported claims."
  { answer := some (env user_content) }

/-! ## ContextSerializer (`serialize_chunks`, serialization.py lines 6-24) -/

/-- A retrieved document chunk: its text and the optional `page` metadata
entry (an integer when present, as produced by the PDF loader). -/
structure Document where
  page_content : String
  page : Option Nat
deriving DecidableEq, Repr

/-- Rendering of one chunk at 1-based index `i`
(serialization.py lines 20-22). -/
def renderChunk (i : Nat) (doc : Document) : String :=
  let page := match doc.page with
    | some p => toString p
    | none => "unknown"
  let content := pyStrip (replaceNewlines doc.page_content)
  "Chunk " ++ toString i ++ " (page=" ++ page ++ "): " ++ content

/-- `serialize_chunks` (serialization.py lines 6-24): the serializer-level
sentinel on empty input, else the chunk renderings joined by a blank line. -/
def serialize_chunks (docs : List Document) : String :=
  if docs.isEmpty then "No relevant context found."
  else
    let context_parts := docs.enum.map (fun p => renderChunk (p.1 + 1) p.2)
    pyJoin "\n\n" context_parts

/-! ## Fallible layer: backend calls that raise

A raised Python exception is modelled by `Except Err`.  `asyncio.gather`
without `return_exceptions` propagates a raised exception to its awaiter,
so it is modelled by sequencing: the first error aborts the whole gather.
-/

/-- Exceptions are identified by their message. -/
abbrev Err := String

/-- `asyncio.gather` over fallible tasks without `return_exceptions`:
all results, or the first raised exception. -/
def gatherE {α : Type} : List (Except Err α) → Except Err (List α)
  | [] => .ok []
  | .error e :: _ => .error e
  | .ok v :: rest =>
    match gatherE rest with
    | .error e => .error e
    | .ok vs => .ok (v :: vs)

/-- `process_question` when the agent call or the tool calls may raise
(agents.py lines 119-141; any raise propagates). -/
def process_questionE (resp : Except Err AgentResponse)
    (tool : String → Except Err ToolResult) : Except Err (List String) :=
  match resp with
  | .error e => .error e
  | .ok r =>
    if r.tool_calls.isEmpty then .ok []
    else
      let tool_tasks :=
        (r.tool_calls.filter (fun tc => tc.name == "retrieval_tool")).map
          (fun tc => tool tc.args)
      if tool_tasks.isEmpty then .ok []
      else
        match gatherE tool_tasks with
        | .error e => .error e
        | .ok tool_results => .ok (tool_results.map extractContent)

/-- `retrieval_node` when backend calls may raise: the outer
`asyncio.gather` of agents.py line 144 propagates any sub-question task's
exception. -/
def retrieval_nodeE (agent : String → Except Err AgentResponse)
    (tool : String → Except Err ToolResult) (state : QAState) : Except Err QAUpdate :=
  let sub_questions := effectiveSubQuestions state
  match gatherE (sub_questions.map (fun q => process_questionE (agent q) tool)) with
  | .error e => .error e
  | .ok results => .ok { context := some (assembleContext results) }

/-- `planning_node` when the generation call may raise. -/
def planning_nodeE (env : String → Except Err String) (state : QAState) :
    Except Err QAUpdate :=
  match env state.question with
  | .error e => .error e
  | .ok content =>
    .ok { plan := some (parsePlan content),
          sub_questions := some
            (if (parseSubQuestions content).isEmpty then [state.question]
             else parseSubQuestions content) }

/-- `summarization_node` when the generation call may raise. -/
def summarization_nodeE (env : String → Except Err String) (state : QAState) :
    Except Err QAUpdate :=
  let user_content :=
    "Question: " ++ state.question ++ "\n\nContext:\n" ++ pyShowOpt state.context
  match env user_content with
  | .error e => .error e
  | .ok draft => .ok { draft_answer := some draft }

/-- `verification_node` when the generation call may raise. -/
def verification_nodeE (env : String → Except Err String) (state : QAState) :
    Except Err QAUpdate :=
  let user_content :=
    "Question: " ++ state.question ++ "\n\nContext:\n" ++ (state.context).getD "" ++
      "\n\nDraft Answer:\n" ++ (state.draft_answer).getD "" ++
      "\n\nPlease verify and correct the draft answer, removing any unsupported claims."
  match env user_content with
  | .error e => .error e
  | .ok ans => .ok { answer := some ans }

/-- Modelled from the spec: the Orchestrator's `run` (spec section 4.5; the
graph module wiring the four nodes is not under `src/`): thread the state
through Planner, Retriever, Summarizer, Verifier strictly in order, merging
each stage's partial output; any stage's exception aborts the run. -/
def pipeline_runE (planEnv : String → Except Err String)
    (agent : String → Except Err AgentResponse)
    (tool : String → Except Err ToolResult)
    (sumEnv : String → Except Err String)
    (verEnv : String → Except Err String)
    (question : String) : Except Err QAState :=
  let s0 : QAState := { question := question }
  match planning_nodeE planEnv s0 with
  | .error e => .error e
  | .ok u1 =>
    let s1 := applyUpdate s0 u1
    match retrieval_nodeE agent tool s1 with
    | .error e => .error e
    | .ok u2 =>
      let s2 := applyUpdate s1 u2
      match summarization_nodeE sumEnv s2 with
      | .error e => .error e
      | .ok u3 =>
        let s3 := applyUpdate s2 u3
        match verification_nodeE verEnv s3 with
        | .error e => .error e
        | .ok u4 => .ok (applyUpdate s3 u4)

/-! ## Helper lemmas -/

/-- Two-sided strip decomposition: a stripped list is the middle of the
original, and everything removed at either end satisfies the class. -/
lemma pyStripList_decomp (p : Char → Bool) (l : List Char) :
    ∃ pre suf, l = pre ++ pyStripList p l ++ suf ∧
      (∀ c ∈ pre, p c) ∧ (∀ c ∈ suf, p c) := by
  refine ⟨l.takeWhile p, ((l.dropWhile p).reverse.takeWhile p).reverse, ?_, ?_, ?_⟩
  · have h2 : (l.dropWhile p).reverse.takeWhile p ++ (l.dropWhile p).reverse.dropWhile p
        = (l.dropWhile p).reverse := List.takeWhile_append_dropWhile p (l.dropWhile p).reverse
    have h3 : l.dropWhile p =
        ((l.dropWhile p).reverse.dropWhile p).reverse ++
          ((l.dropWhile p).reverse.takeWhile p).reverse := by
      conv_lhs => rw [← List.reverse_reverse (l.dropWhile p), ← h2]
      rw [List.reverse_append]
    calc l = l.takeWhile p ++ l.dropWhile p := (List.takeWhile_append_dropWhile p l).symm
      _ = l.takeWhile p ++ (((l.dropWhile p).reverse.dropWhile p).reverse ++
            ((l.dropWhile p).reverse.takeWhile p).reverse) := by rw [← h3]
      _ = l.takeWhile p ++ pyStripList p l ++
            ((l.dropWhile p).reverse.takeWhile p).reverse := by
          rw [pyStripList, List.append_assoc]
  · exact fun c hc => List.mem_takeWhile_imp hc
  · intro c hc
    rw [List.mem_reverse] at hc
    exact List.mem_takeWhile_imp hc

/-- The Retriever never runs on an empty sub-question list. -/
lemma effectiveSubQuestions_ne_nil (state : QAState) :
    effectiveSubQuestions state ≠ [] := by
  unfold effectiveSubQuestions
  cases h : state.sub_questions with
  | none => simp
  | some l =>
    by_cases hl : l.isEmpty <;> simp [hl]
    simpa [List.isEmpty_iff] using hl

/-- A non-empty gather in which every task raises, raises. -/
lemma gatherE_all_error {α : Type} (tasks : List (Except Err α))
    (hne : tasks ≠ []) (h : ∀ t ∈ tasks, ∃ e, t = Except.error e) :
    ∃ e, gatherE tasks = Except.error e := by
  match tasks with
  | [] => exact absurd rfl hne
  | t :: rest =>
    obtain ⟨e, he⟩ := h t (List.mem_cons_self t rest)
    exact ⟨e, by simp [gatherE, he]⟩

/-- Slot contents after running the tasks in any completion order: a task
that has completed occupies its own slot. -/
lemma runTasks_eq {α : Type} (tasks : List α) (order : List Nat)
    (acc : Nat → Option α) (i : Nat) :
    (order.foldl (fun acc j => writeSlot acc j tasks[j]?) acc) i =
      if i ∈ order then tasks[i]? else acc i := by
  induction order generalizing acc with
  | nil => simp
  | cons j rest ih =>
    simp only [List.foldl_cons, List.mem_cons]
    rw [ih]
    by_cases hr : i ∈ rest
    · simp [hr]
    · by_cases hj : i = j
      · subst hj
        simp [hr, writeSlot]
      · simp [hr, hj, writeSlot]

/-- `asyncio.gather` semantics: whatever the completion order, as long as
every task completes, the gathered list is the tasks in submission order. -/
lemma gatherSched_eq {α : Type} [Inhabited α] (tasks : List α) (order : List Nat)
    (h : ∀ i < tasks.length, i ∈ order) :
    gatherSched tasks order = tasks := by
  apply List.ext_getElem
  · simp [gatherSched]
  · intro i h1 h2
    simp only [gatherSched, List.getElem_map, List.getElem_range]
    have hlen : i < tasks.length := by simpa [gatherSched] using h2
    rw [runTasks, runTasks_eq tasks order _ i]
    simp [h i hlen, List.getElem?_eq_getElem hlen]

/-! ## Sanity checks

Concrete evaluations of the Python string model (each checked against
CPython) and the parsers. -/

example : pySplitOn "a b" " " = ["a", "b"] := by decide
example : pySplitOn "" "x" = [""] := by decide
example : pySplitOn "aaa" "aa" = ["", "a"] := by decide
example : pySplitOn "a\n\nb" "\n" = ["a", "", "b"] := by decide
example : pyStrip "  a b \n" = "a b" := by decide
example : pyStripBullet "- a -" = "a" := by decide
example : replaceNewlines "a\nb" = "a b" := by decide
example : parsePlan "Plan:\nDo X\nSub-questions:\n- a\n- b" = "Do X" := by decide
example : parseSubQuestions "Plan:\nDo X\nSub-questions:\n- a\n- b" = ["a", "b"] := by decide
example : parseSubQuestions "nothing here" = [] := by decide
example : serialize_chunks [] = "No relevant context found." := by decide
example : serialize_chunks [⟨"a\nb", some 3⟩] = "Chunk 1 (page=3): a b" := by decide

/-! ## Claims -/

/-- C6: for the planner response `"Plan:\nDo X\nSub-questions:\n- a\n- b"`,
`planning_node` extracts the plan `"Do X"` (everything between the literal
`Plan:` marker and the `Sub-questions:` marker, trimmed) and the
sub-questions `["a", "b"]` (each non-empty line after `Sub-questions:`,
bullet-stripped). -/
theorem plan_subquestion_extraction_example :
    planning_node (fun _ => "Plan:\nDo X\nSub-questions:\n- a\n- b") { question := "q" } =
      { plan := some "Do X", sub_questions := some ["a", "b"] } := by decide

/-- C2 is refuted as stated: for the planner response `"Sub-questions:\n-"`
the section after the marker yields the single entry `""` — zero non-empty
entries — yet `planning_node` returns `[""]`, not `[question]`: the
fallback tests the parsed list for emptiness before bullet-stripping can
turn a bullet-only line into an empty entry. -/
theorem subquestion_fallback_counterexample :
    parseSubQuestions "Sub-questions:\n-" = [""] ∧
    (planning_node (fun _ => "Sub-questions:\n-") { question := "q" }).sub_questions =
      some [""] ∧
    ([""] : List String) ≠ ["q"] ∧ ("" : String).isEmpty = true := by decide

/-- C2 amended: if no `Sub-questions:` marker is found, or the parsed
sub-question list is empty (every line after the marker is whitespace-only),
`planning_node` returns `sub_questions = [question]`; the result is never
the empty list.  (A line consisting only of bullet characters yields an
empty-string entry and suppresses the fallback.) -/
theorem subquestion_fallback_amended (env : String → String) (state : QAState) :
    (¬ 1 < (pySplitOn (env state.question) "Sub-questions:").length →
      (planning_node env state).sub_questions = some [state.question]) ∧
    (parseSubQuestions (env state.question) = [] →
      (planning_node env state).sub_questions = some [state.question]) ∧
    ∀ l, (planning_node env state).sub_questions = some l → l ≠ [] := by
  refine ⟨?_, ?_, ?_⟩
  · intro h
    have hp : parseSubQuestions (env state.question) = [] := by
      unfold parseSubQuestions
      simp [h]
    simp [planning_node, hp]
  · intro h
    simp [planning_node, h]
  · intro l hl
    by_cases he : (parseSubQuestions (env state.question)).isEmpty
    · simp [planning_node, he] at hl
      simp [← hl]
    · simp [planning_node, he] at hl
      rw [← hl]
      intro hnil
      rw [hnil] at he
      exact he rfl

/-- Witness for the amended C2 at a concrete marker-free response. -/
theorem subquestion_fallback_amended_witness :
    parseSubQuestions "no markers here" = [] ∧
    (planning_node (fun _ => "no markers here") { question := "q" }).sub_questions =
      some ["q"] :=
  ⟨by decide,
    (subquestion_fallback_amended (fun _ => "no markers here") { question := "q" }).2.1
      (by decide)⟩

/-- C9 is refuted as stated: for the line `"a -"` (no leading bullet) the
code's `q.strip("- ")` also removes the trailing dash, producing the entry
`"a"`, while removing only a leading bullet and trimming would leave
`"a -"` unchanged. -/
theorem bullet_strip_counterexample :
    parseSubQuestions "Sub-questions:\na -" = ["a"] ∧
    bulletStrip "a -" = "a" ∧
    specLeadingBulletStrip "a -" = "a -" ∧
    ("a" : String) ≠ "a -" := by decide

/-- C9 amended: for every line, the parsed entry is obtained by removing
only characters drawn from the bullet class (`-` and space) or whitespace,
and only at the two ends of the line — the code strips the bullet
characters from BOTH ends (`strip("- ")`), then trims; the interior of the
line is preserved unchanged as a contiguous substring. -/
theorem bullet_strip_amended (q : String) :
    ∃ pre suf, q.data = pre ++ (bulletStrip q).data ++ suf ∧
      (∀ c ∈ pre, isBulletChar c = true ∨ isPyWS c = true) ∧
      (∀ c ∈ suf, isBulletChar c = true ∨ isPyWS c = true) := by
  obtain ⟨p1, s1, h1, hp1, hs1⟩ := pyStripList_decomp isBulletChar q.data
  obtain ⟨p2, s2, h2, hp2, hs2⟩ := pyStripList_decomp isPyWS (pyStripBullet q).data
  refine ⟨p1 ++ p2, s2 ++ s1, ?_, ?_, ?_⟩
  · calc q.data = p1 ++ (pyStripBullet q).data ++ s1 := h1
      _ = p1 ++ (p2 ++ (bulletStrip q).data ++ s2) ++ s1 := by
          have hb : (bulletStrip q).data = pyStripList isPyWS (pyStripBullet q).data := rfl
          rw [hb, ← h2]
      _ = (p1 ++ p2) ++ (bulletStrip q).data ++ (s2 ++ s1) := by
          simp [List.append_assoc]
  · intro c hc
    rcases List.mem_append.mp hc with h | h
    · exact Or.inl (hp1 c h)
    · exact Or.inr (hp2 c h)
  · intro c hc
    rcases List.mem_append.mp hc with h | h
    · exact Or.inr (hs2 c h)
    · exact Or.inl (hs1 c h)

/-- C5: `serialize_chunks` returns the literal serializer sentinel on the
empty list; renders `Passage(content="a\nb", page=3)` as
`"Chunk 1 (page=3): a b"`; and in general renders every non-empty list as
the per-chunk renderings (1-based index, `page` or `"unknown"`, newlines
collapsed to spaces and trimmed) joined by a blank line. -/
theorem serialize_chunks_format :
    serialize_chunks [] = "No relevant context found." ∧
    serialize_chunks [{ page_content := "a\nb", page := some 3 }] =
      "Chunk 1 (page=3): a b" ∧
    ∀ docs : List Document, docs ≠ [] →
      serialize_chunks docs =
        pyJoin "\n\n" (docs.enum.map (fun p => renderChunk (p.1 + 1) p.2)) := by
  refine ⟨by decide, by decide, ?_⟩
  intro docs h
  unfold serialize_chunks
  rw [if_neg]
  simpa [List.isEmpty_iff] using h

/-- Witness for C5 at a concrete one-element list. -/
theorem serialize_chunks_format_witness :
    ([⟨"x", none⟩] : List Document) ≠ [] ∧
    serialize_chunks [⟨"x", none⟩] =
      pyJoin "\n\n" (([⟨"x", none⟩] : List Document).enum.map
        (fun p => renderChunk (p.1 + 1) p.2)) :=
  ⟨by decide, serialize_chunks_format.2.2 [⟨"x", none⟩] (by decide)⟩

/-- C7: a sub-question whose agent response requests no tool invocation, or
only invocations whose name differs from `"retrieval_tool"`, contributes
zero passage-texts and raises no exception — even when every tool call in
the environment would raise. -/
theorem nonmatching_tool_calls_skipped (resp : AgentResponse)
    (tool : String → ToolResult) (toolE : String → Except Err ToolResult)
    (h : ∀ tc ∈ resp.tool_calls, tc.name ≠ "retrieval_tool") :
    process_question resp tool = [] ∧
    process_questionE (Except.ok resp) toolE = Except.ok [] := by
  have hfilter : resp.tool_calls.filter (fun tc => tc.name == "retrieval_tool") = [] := by
    apply List.filter_eq_nil_iff.mpr
    intro tc htc
    simpa using h tc htc
  constructor
  · unfold process_question
    by_cases he : resp.tool_calls.isEmpty <;> simp [he, hfilter]
  · unfold process_questionE
    by_cases he : resp.tool_calls.isEmpty <;> simp [he, hfilter]

/-- Witness for C7: one non-matching tool call, a raising tool backend. -/
theorem nonmatching_tool_calls_skipped_witness :
    (∀ tc ∈ ({ tool_calls := [⟨"other_tool", "a"⟩] } : AgentResponse).tool_calls,
      tc.name ≠ "retrieval_tool") ∧
    process_questionE (Except.ok { tool_calls := [⟨"other_tool", "a"⟩] })
      (fun _ => Except.error "boom") = Except.ok [] :=
  ⟨by decide,
    (nonmatching_tool_calls_skipped { tool_calls := [⟨"other_tool", "a"⟩] }
      (fun _ => ToolResult.bare "unused") (fun _ => Except.error "boom")
      (by decide)).2⟩

/-- C8: each stage writes only its designated fields.  The partial update
returned by every node leaves all other fields unset, and merging it into
the state preserves every field the node does not own — in particular no
stage overwrites `question` or any field written by a prior stage. -/
theorem stage_frame_discipline (penv senv venv : String → String)
    (agent : String → AgentResponse) (tool : String → ToolResult) (state : QAState) :
    ((planning_node penv state).question = none ∧
      (planning_node penv state).context = none ∧
      (planning_node penv state).draft_answer = none ∧
      (planning_node penv state).answer = none ∧
      (applyUpdate state (planning_node penv state)).question = state.question ∧
      (applyUpdate state (planning_node penv state)).context = state.context ∧
      (applyUpdate state (planning_node penv state)).draft_answer = state.draft_answer ∧
      (applyUpdate state (planning_node penv state)).answer = state.answer) ∧
    ((retrieval_node agent tool state).question = none ∧
      (retrieval_node agent tool state).plan = none ∧
      (retrieval_node agent tool state).sub_questions = none ∧
      (retrieval_node agent tool state).draft_answer = none ∧
      (retrieval_node agent tool state).answer = none ∧
      (applyUpdate state (retrieval_node agent tool state)).question = state.question ∧
      (applyUpdate state (retrieval_node agent tool state)).plan = state.plan ∧
      (applyUpdate state (retrieval_node agent tool state)).sub_questions = state.sub_questions ∧
      (applyUpdate state (retrieval_node agent tool state)).draft_answer = state.draft_answer ∧
      (applyUpdate state (retrieval_node agent tool state)).answer = state.answer) ∧
    ((summarization_node senv state).question = none ∧
      (summarization_node senv state).plan = none ∧
      (summarization_node senv state).sub_questions = none ∧
      (summarization_node senv state).context = none ∧
      (summarization_node senv state).answer = none ∧
      (applyUpdate state (summarization_node senv state)).question = state.question ∧
      (applyUpdate state (summarization_node senv state)).plan = state.plan ∧
      (applyUpdate state (summarization_node senv state)).sub_questions = state.sub_questions ∧
      (applyUpdate state (summarization_node senv state)).context = state.context ∧
      (applyUpdate state (summarization_node senv state)).answer = state.answer) ∧
    ((verification_node venv state).question = none ∧
      (verification_node venv state).plan = none ∧
      (verification_node venv state).sub_questions = none ∧
      (verification_node venv state).context = none ∧
      (verification_node venv state).draft_answer = none ∧
      (applyUpdate state (verification_node venv state)).question = state.question ∧
      (applyUpdate state (verification_node venv state)).plan = state.plan ∧
      (applyUpdate state (verification_node venv state)).sub_questions = state.sub_questions ∧
      (applyUpdate state (verification_node venv state)).context = state.context ∧
      (applyUpdate state (verification_node venv state)).draft_answer = state.draft_answer) :=
  ⟨⟨rfl, rfl, rfl, rfl, rfl, rfl, rfl, rfl⟩,
    ⟨rfl, rfl, rfl, rfl, rfl, rfl, rfl, rfl, rfl, rfl⟩,
    ⟨rfl, rfl, rfl, rfl, rfl, rfl, rfl, rfl, rfl, rfl⟩,
    ⟨rfl, rfl, rfl, rfl, rfl, rfl, rfl, rfl, rfl, rfl⟩⟩

/-- C10: `retrieval_node` tolerates a missing or empty `sub_questions` field
on its own: the Retriever then runs on the single sub-question
`[state.question]` — one retrieval task, not zero and no failure —
independently of the Planner's fallback. -/
theorem retrieval_subquestion_fallback (agent : String → AgentResponse)
    (tool : String → ToolResult) (state : QAState)
    (h : state.sub_questions = none ∨ state.sub_questions = some []) :
    effectiveSubQuestions state = [state.question] ∧
    retrieval_node agent tool state =
      { context := some (assembleContext [process_question (agent state.question) tool]) } := by
  have he : effectiveSubQuestions state = [state.question] := by
    rcases h with h | h <;> simp [effectiveSubQuestions, h]
  exact ⟨he, by simp [retrieval_node, he]⟩

/-- Witness for C10 at a state with no `sub_questions` key. -/
theorem retrieval_subquestion_fallback_witness :
    ({ question := "q" } : QAState).sub_questions = none ∧
    retrieval_node (fun _ => { tool_calls := [] }) (fun _ => ToolResult.bare "c")
      { question := "q" } = { context := some "No context found." } := by
  refine ⟨rfl, ?_⟩
  have h := (retrieval_subquestion_fallback (fun _ => { tool_calls := [] })
    (fun _ => ToolResult.bare "c") { question := "q" } (Or.inl rfl)).2
  rw [h]
  decide

/-- C4: when every sub-question contributes zero passage-texts,
`retrieval_node` sets `context` to exactly the pipeline-level sentinel
`"No context found."` — not the empty string — and this sentinel is
distinct from the serializer-level sentinel `"No relevant context found."`
that `serialize_chunks` returns on empty input. -/
theorem empty_retrieval_sentinel (agent : String → AgentResponse)
    (tool : String → ToolResult) (state : QAState)
    (h : ∀ q ∈ effectiveSubQuestions state, process_question (agent q) tool = []) :
    (retrieval_node agent tool state).context = some "No context found." ∧
    ("No context found." : String) ≠ "" ∧
    ("No context found." : String) ≠ "No relevant context found." ∧
    serialize_chunks [] = "No relevant context found." := by
  refine ⟨?_, by decide, by decide, by decide⟩
  have hj : ((effectiveSubQuestions state).map
      (fun q => process_question (agent q) tool)).flatten = [] := by
    apply List.flatten_eq_nil_iff.mpr
    intro x hx
    rcases List.mem_map.mp hx with ⟨q, hq, rfl⟩
    exact h q hq
  simp [retrieval_node, assembleContext, hj]

/-- Witness for C4: an agent that never requests a tool call. -/
theorem empty_retrieval_sentinel_witness :
    (∀ q ∈ effectiveSubQuestions { question := "q", sub_questions := some ["q1", "q2"] },
      process_question ({ tool_calls := [] } : AgentResponse) (fun _ => ToolResult.bare "c") = []) ∧
    (retrieval_node (fun _ => { tool_calls := [] }) (fun _ => ToolResult.bare "c")
      { question := "q", sub_questions := some ["q1", "q2"] }).context =
        some "No context found." :=
  ⟨by decide,
    (empty_retrieval_sentinel (fun _ => { tool_calls := [] }) (fun _ => ToolResult.bare "c")
      { question := "q", sub_questions := some ["q1", "q2"] } (by decide)).1⟩

/-- C3: whatever completion order the concurrent per-sub-question tasks
finish in, the Retriever's merge is by sub-question submission order: the
operationally scheduled node agrees with the submission-order node, and the
assembled context is the submission-order flattening of the per-sub-question
contributions joined by a blank line. -/
theorem context_merge_preserves_submission_order (agent : String → AgentResponse)
    (tool : String → ToolResult) (order : List Nat) (state : QAState)
    (h : ∀ i < (effectiveSubQuestions state).length, i ∈ order) :
    retrieval_node_sched agent tool order state = retrieval_node agent tool state ∧
    (retrieval_node_sched agent tool order state).context =
      some (assembleContext
        ((effectiveSubQuestions state).map (fun q => process_question (agent q) tool))) := by
  have hg : gatherSched
      ((effectiveSubQuestions state).map (fun q => process_question (agent q) tool)) order =
      (effectiveSubQuestions state).map (fun q => process_question (agent q) tool) := by
    apply gatherSched_eq
    simpa using h
  constructor
  · simp [retrieval_node_sched, retrieval_node, hg]
  · simp [retrieval_node_sched, hg]

/-- Witness for C3: sub-questions `["q1", "q2"]` with `q2` completing first
(completion order `[1, 0]`); the context still lists the first
sub-question's passage before the second's. -/
theorem context_merge_order_witness :
    (∀ i < (effectiveSubQuestions
        { question := "q", sub_questions := some ["q1", "q2"] }).length, i ∈ [1, 0]) ∧
    (retrieval_node_sched
        (fun q => { tool_calls := [⟨"retrieval_tool", q⟩] })
        (fun a => ToolResult.bare (if a = "q1" then "P1" else "P2"))
        [1, 0]
        { question := "q", sub_questions := some ["q1", "q2"] }).context =
      some "P1\n\nP2" := by
  refine ⟨by decide, ?_⟩
  have h := (context_merge_preserves_submission_order
    (fun q => { tool_calls := [⟨"retrieval_tool", q⟩] })
    (fun a => ToolResult.bare (if a = "q1" then "P1" else "P2"))
    [1, 0]
    { question := "q", sub_questions := some ["q1", "q2"] } (by decide)).2
  rw [h]
  decide

/-- C1: if every sub-question's Retriever task raises (any backend call of
the stage failing), the exception escapes `retrieval_nodeE` unhandled —
`asyncio.gather` without `return_exceptions` — for every state it could
run on, and the Orchestrator's run on the question fails as a whole: the
caller receives an error, never a partially populated `QAState`. -/
theorem pipeline_fails_when_all_retrieval_raises
    (planEnv : String → Except Err String)
    (agent : String → Except Err AgentResponse)
    (tool : String → Except Err ToolResult)
    (sumEnv verEnv : String → Except Err String)
    (question : String)
    (hplan : ∃ c, planEnv question = Except.ok c)
    (hfail : ∀ q, ∃ e, process_questionE (agent q) tool = Except.error e) :
    (∀ state, ∃ e, retrieval_nodeE agent tool state = Except.error e) ∧
    (∃ e, pipeline_runE planEnv agent tool sumEnv verEnv question = Except.error e) ∧
    ∀ s, pipeline_runE planEnv agent tool sumEnv verEnv question ≠ Except.ok s := by
  have hret : ∀ state, ∃ e, retrieval_nodeE agent tool state = Except.error e := by
    intro state
    obtain ⟨e, he⟩ := gatherE_all_error
      ((effectiveSubQuestions state).map (fun q => process_questionE (agent q) tool))
      (by simpa [List.map_eq_nil_iff] using effectiveSubQuestions_ne_nil state)
      (by
        intro t ht
        rcases List.mem_map.mp ht with ⟨q, hq, rfl⟩
        exact hfail q)
    exact ⟨e, by simp [retrieval_nodeE, he]⟩
  have hpipe : ∃ e, pipeline_runE planEnv agent tool sumEnv verEnv question =
      Except.error e := by
    obtain ⟨c, hc⟩ := hplan
    match h1 : planning_nodeE planEnv ({ question := question } : QAState) with
    | .error e =>
      rw [planning_nodeE, hc] at h1
      exact absurd h1 (by simp)
    | .ok u1 =>
      obtain ⟨e, he⟩ := hret (applyUpdate { question := question } u1)
      exact ⟨e, by simp [pipeline_runE, h1, he]⟩
  refine ⟨hret, hpipe, ?_⟩
  intro s hs
  obtain ⟨e, he⟩ := hpipe
  rw [hs] at he
  exact Except.noConfusion he

/-- Witness for C1: a planner backend that answers, a retrieval agent
backend that raises on every sub-question. -/
theorem pipeline_fails_witness :
    ((fun _ : String => (Except.ok "planned" : Except Err String)) "q" =
      Except.ok "planned") ∧
    ∃ e, pipeline_runE (fun _ => Except.ok "planned")
      (fun _ => Except.error "backend down") (fun _ => Except.error "tool down")
      (fun s => Except.ok s) (fun s => Except.ok s) "q" = Except.error e :=
  ⟨rfl,
    (pipeline_fails_when_all_retrieval_raises
      (fun _ => Except.ok "planned") (fun _ => Except.error "backend down")
      (fun _ => Except.error "tool down") (fun s => Except.ok s) (fun s => Except.ok s)
      "q" ⟨"planned", rfl⟩ (fun _ => ⟨"backend down", rfl⟩)).2.1⟩
